import Mathlib

/-
  Verification of the hypoalbuminemia risk-calculator page (src/app.py).

  The numeric core of the page is embedded over ℚ: Python floats are
  modelled as exact rationals (the constants 0.3396, 0.5, 1 are exactly
  representable in the embedding, so the two-segment recalibration law is
  modelled exactly).  Streamlit rendering calls are modelled as an explicit
  list of render items; the model-loading block is modelled as a function of
  an abstract filesystem; the prediction block is modelled as a pure
  function of the assembled record and the classifier.
-/

namespace HypoAlb

/-- The fixed operating threshold, src/app.py line 94: `threshold = 0.3396`. -/
def threshold : ℚ := 0.3396

/-- Low branch of the recalibration, line 100:
`display_prob = (raw_prob / threshold) * 0.5`. -/
def lowSegment (raw : ℚ) : ℚ := (raw / threshold) * 0.5

/-- High branch of the recalibration, line 103:
`display_prob = 0.5 + ((raw_prob - threshold) / (1 - threshold)) * 0.5`. -/
def highSegment (raw : ℚ) : ℚ := 0.5 + ((raw - threshold) / (1 - threshold)) * 0.5

/-- The two-segment recalibration, lines 98-103:
`if raw_prob < threshold: ... else: ...`. -/
def display_prob (raw : ℚ) : ℚ :=
  if raw < threshold then lowSegment raw else highSegment raw

/-- Risk stratification, line 118: `if display_prob > 0.5`. -/
def is_high_risk (raw : ℚ) : Bool := decide (display_prob raw > 0.5)

/-- Written from the spec's words (§4.2 step 2), to be compared with the
code's `display_prob`: "If `raw < threshold`: `display = (raw / threshold) *
0.5`.  Else (`raw >= threshold`): `display = 0.5 + ((raw - threshold) /
(1 - threshold)) * 0.5`", with the threshold constant 0.3396. -/
def display_spec (raw : ℚ) : ℚ :=
  if raw < 0.3396 then (raw / 0.3396) * 0.5
  else 0.5 + ((raw - 0.3396) / (1 - 0.3396)) * 0.5

/-- The eight widget inputs of the sidebar, lines 54-63.  `Age` is an
integer widget; the seven laboratory values are float widgets. -/
structure WidgetInputs where
  Age : ℤ
  CHE : ℚ
  HCT : ℚ
  hs_CRP : ℚ
  AG : ℚ
  Mg : ℚ
  ALT : ℚ
  INR : ℚ
deriving DecidableEq

/-- The widget bounds of lines 54-63: each `st.number_input` call carries a
`min_value`/`max_value` pair, and the widget only ever returns a value
inside that range.  This predicate states that contract for the eight
widgets exactly as the source writes the bounds. -/
def inBounds (w : WidgetInputs) : Prop :=
  18 ≤ w.Age ∧ w.Age ≤ 110 ∧
  100 ≤ w.CHE ∧ w.CHE ≤ 20000 ∧
  10 ≤ w.HCT ∧ w.HCT ≤ 70 ∧
  0 ≤ w.hs_CRP ∧ w.hs_CRP ≤ 300 ∧
  0 ≤ w.AG ∧ w.AG ≤ 50 ∧
  0 ≤ w.Mg ∧ w.Mg ≤ 5 ∧
  0 ≤ w.ALT ∧ w.ALT ≤ 500 ∧
  0 ≤ w.INR ∧ w.INR ≤ 10

instance (w : WidgetInputs) : Decidable (inBounds w) := by
  unfold inBounds; infer_instance

/-- The assembled record, lines 66-76: the dict handed to
`pd.DataFrame`, keys in the source's fixed order. -/
def user_input_features (w : WidgetInputs) : List (String × ℚ) :=
  [("Mg", w.Mg), ("ALT", w.ALT), ("AG", w.AG), ("CHE", w.CHE),
   ("HCT", w.HCT), ("INR", w.INR), ("hs_CRP", w.hs_CRP), ("Age", (w.Age : ℚ))]

/-- The output of one scoring pass (spec §3 "RiskAssessment"); in the code
these are the local variables `raw_prob`, `display_prob` and the branch
taken at line 118. -/
structure RiskAssessment where
  raw_probability : ℚ
  display_probability : ℚ
  is_high_risk : Bool
deriving DecidableEq

/-- The prediction block, lines 88-124, as a function of the assembled
record and the classifier.  The classifier is the external
`predict_proba`; the code reads `prediction_proba[0][1]`, the
positive-class entry of the single row, modelled as the second component
of the returned pair.  The block performs no check on the returned
probability: `raw_prob` flows straight into the recalibration. -/
def predictionBlock (record : List (String × ℚ))
    (clf : List (String × ℚ) → ℚ × ℚ) : RiskAssessment :=
  let raw_prob := (clf record).2
  let d := display_prob raw_prob
  ⟨raw_prob, d, decide (d > 0.5)⟩

/-- One rendered element of the results section, lines 105-127. -/
inductive RenderItem
  | metric (label : String) (value : ℚ)
  | progressBar (value : ℚ)
  | errorBox (msg : String)
  | successBox (msg : String)
  | markdown (msg : String)
  | caption (t : ℚ)
deriving DecidableEq

/-- The result rendering, lines 105-127: a metric and a progress bar
holding the display probability, the verdict branch, and the caption
naming the threshold.  The raw probability is not among the rendered
items. -/
def renderResults (raw : ℚ) : List RenderItem :=
  let d := display_prob raw
  [RenderItem.metric "Risk Score" d, RenderItem.progressBar d] ++
  (if d > 0.5 then
    [RenderItem.errorBox "High Risk Group",
     RenderItem.markdown "The predicted risk score is High (>50%).",
     RenderItem.markdown "Recommendation: Clinical nutritional intervention is suggested."]
   else
    [RenderItem.successBox "Low Risk Group",
     RenderItem.markdown "The predicted risk score is Low (<50%)."]) ++
  [RenderItem.caption threshold]

/-- The numeric quantities surfaced by the rendering. -/
def surfacedNumbers (raw : ℚ) : List ℚ :=
  (renderResults raw).filterMap fun item =>
    match item with
    | RenderItem.metric _ v => some v
    | RenderItem.progressBar v => some v
    | RenderItem.caption t => some t
    | _ => none

/-- A pickled artifact: either a bare classifier or a list wrapping
classifiers (the source's "model saved as a list" case, line 37).
Classifiers themselves are opaque to the loader; they are tagged by ℕ. -/
inductive Artifact
  | clf (m : ℕ)
  | wrapped (ms : List ℕ)
deriving DecidableEq

/-- What probing, opening and unpickling one file name yields, lines 32-35:
`none` means `os.path.exists` is false; `some none` means opening or
`pickle.load` raises; `some (some a)` means the artifact `a` is loaded. -/
abbrev LoadFS : Type := String → Option (Option Artifact)

/-- The probed file names, line 28 (the same name listed twice). -/
def model_files : List String := ["xgb_model.pkl", "xgb_model.pkl"]

/-- One iteration of the loading loop, lines 31-41, as a transition on the
current `loaded_model`; the Bool records whether `break` was reached.  A
raised exception (unreadable file, or `loaded_model[0]` on an empty list)
is caught by the handler at line 40, so the loop continues without
breaking; in the empty-list case the list was already assigned to
`loaded_model` before the indexing raised. -/
def loadStep (fs : LoadFS) (file : String) (cur : Option Artifact) :
    Option Artifact × Bool :=
  match fs file with
  | none => (cur, false)
  | some none => (cur, false)
  | some (some (Artifact.clf m)) => (some (Artifact.clf m), true)
  | some (some (Artifact.wrapped [])) => (some (Artifact.wrapped []), false)
  | some (some (Artifact.wrapped (m :: _))) => (some (Artifact.clf m), true)

/-- The loading loop over the file list, lines 31-41. -/
def loadLoop (fs : LoadFS) : List String → Option Artifact → Option Artifact
  | [], cur => cur
  | f :: rest, cur =>
    match loadStep fs f cur with
    | (cur2, true) => cur2
    | (cur2, false) => loadLoop fs rest cur2

/-- The final `loaded_model` after the loop, starting from `None` (line 29). -/
def loaded_model (fs : LoadFS) : Option Artifact :=
  loadLoop fs model_files none

/-- Lines 43-45: when `loaded_model` is still `None` the page shows an error
and calls `st.stop()` (modelled as `Except.error ()`); otherwise startup
proceeds with whatever value `loaded_model` holds. -/
def startupResult (fs : LoadFS) : Except Unit Artifact :=
  match loaded_model fs with
  | none => Except.error ()
  | some v => Except.ok v

/-- The record assembled from the sidebar's default values, lines 54-63. -/
def defaultRecord : List (String × ℚ) :=
  user_input_features ⟨75, 5000, 40, 10, 12, 0.85, 25, 1.1⟩

/-- A seven-field record lacking the INR field. -/
def recordMissingINR : List (String × ℚ) :=
  [("Mg", 0.85), ("ALT", 25), ("AG", 12), ("CHE", 5000),
   ("HCT", 40), ("hs_CRP", 10), ("Age", 75)]

/-- C1: for every raw probability, with the fixed threshold 0.3396, the
code's display probability (src/app.py lines 94-103) computes exactly the
spec's two-segment linear law: if raw < threshold then
display = (raw / threshold) * 0.5, otherwise
display = 0.5 + ((raw - threshold) / (1 - threshold)) * 0.5. -/
theorem display_matches_spec_law :
    threshold = 0.3396 ∧ ∀ raw : ℚ, display_prob raw = display_spec raw := by
  refine ⟨rfl, fun raw => ?_⟩
  unfold display_prob display_spec lowSegment highSegment threshold
  rfl

/-- C2: the high-risk verdict is the strict comparison display > 0.5; at
raw = threshold the display is exactly 0.5 and the verdict is low risk,
and for any raw strictly above the threshold the verdict is high risk. -/
theorem strict_verdict_boundary :
    (∀ raw : ℚ, is_high_risk raw = true ↔ display_prob raw > 0.5) ∧
    display_prob threshold = 0.5 ∧
    is_high_risk threshold = false ∧
    (∀ raw : ℚ, threshold < raw → is_high_risk raw = true) := by
  have hmid : display_prob threshold = 0.5 := by
    norm_num [display_prob, lowSegment, highSegment, threshold]
  refine ⟨fun raw => by simp [is_high_risk], hmid, ?_, fun raw h => ?_⟩
  · simp [is_high_risk, hmid]
  · simp only [is_high_risk, decide_eq_true_eq, gt_iff_lt]
    unfold display_prob highSegment lowSegment threshold at *
    rw [if_neg (by norm_num; linarith)]
    norm_num
    linarith

/-- C2 witness: a raw probability strictly above the threshold, 1/2, is
classified high risk. -/
theorem strict_verdict_boundary_witness :
    threshold < (1/2 : ℚ) ∧ is_high_risk (1/2) = true :=
  ⟨by norm_num [threshold],
   strict_verdict_boundary.2.2.2 (1/2) (by norm_num [threshold])⟩

/-- C3: the display is strictly increasing in raw on each linear segment,
the two segments meet without a jump at raw = threshold, and at the
threshold both branch formulas yield exactly 0.5. -/
theorem recalibration_monotone_continuous :
    (∀ r1 r2 : ℚ, r1 < r2 → r2 < threshold →
      display_prob r1 < display_prob r2) ∧
    (∀ r1 r2 : ℚ, threshold ≤ r1 → r1 < r2 →
      display_prob r1 < display_prob r2) ∧
    lowSegment threshold = 0.5 ∧ highSegment threshold = 0.5 ∧
    display_prob threshold = 0.5 := by
  refine ⟨fun r1 r2 h1 h2 => ?_, fun r1 r2 h1 h2 => ?_, ?_, ?_, ?_⟩
  · unfold display_prob lowSegment threshold at *
    rw [if_pos (by linarith), if_pos h2]
    norm_num
    linarith
  · unfold display_prob highSegment lowSegment threshold at *
    rw [if_neg (by norm_num; linarith), if_neg (by norm_num; linarith)]
    norm_num
    linarith
  · norm_num [lowSegment, threshold]
  · norm_num [highSegment, threshold]
  · norm_num [display_prob, lowSegment, highSegment, threshold]

/-- C3 witness: strict increase on the low segment at 1/10 < 2/10 < threshold
and on the high segment at threshold ≤ 1/2 < 3/4. -/
theorem recalibration_monotone_continuous_witness :
    ((1/10 : ℚ) < 2/10 ∧ (2/10 : ℚ) < threshold ∧
      display_prob (1/10) < display_prob (2/10)) ∧
    (threshold ≤ (1/2 : ℚ) ∧ (1/2 : ℚ) < 3/4 ∧
      display_prob (1/2) < display_prob (3/4)) :=
  ⟨⟨by norm_num, by norm_num [threshold],
    recalibration_monotone_continuous.1 (1/10) (2/10) (by norm_num)
      (by norm_num [threshold])⟩,
   ⟨by norm_num [threshold], by norm_num,
    recalibration_monotone_continuous.2.1 (1/2) (3/4)
      (by norm_num [threshold]) (by norm_num)⟩⟩

/-- C4: the recalibration is range-preserving: raw in [0,1] gives display in
[0,1], with display 0 = 0 and display 1 = 1. -/
theorem recalibration_range_preserving :
    (∀ raw : ℚ, 0 ≤ raw → raw ≤ 1 →
      0 ≤ display_prob raw ∧ display_prob raw ≤ 1) ∧
    display_prob 0 = 0 ∧ display_prob 1 = 1 := by
  refine ⟨fun raw h0 h1 => ?_, ?_, ?_⟩
  · unfold display_prob highSegment lowSegment threshold
    split_ifs with h
    · norm_num at h ⊢
      constructor <;> linarith
    · norm_num at h ⊢
      constructor <;> linarith
  · norm_num [display_prob, lowSegment, highSegment, threshold]
  · norm_num [display_prob, lowSegment, highSegment, threshold]

/-- C4 witness: the input 1/5 lies in [0,1] and its display lies in [0,1]. -/
theorem recalibration_range_preserving_witness :
    (0 : ℚ) ≤ 1/5 ∧ (1/5 : ℚ) ≤ 1 ∧
    (0 ≤ display_prob (1/5) ∧ display_prob (1/5) ≤ 1) :=
  ⟨by norm_num, by norm_num,
   recalibration_range_preserving.1 (1/5) (by norm_num) (by norm_num)⟩

/-- C5 counterexample: with the classifier returning p_positive = 1.4 = 7/5,
the prediction block does not fail: it silently produces a full
RiskAssessment whose display probability is 2151/1651 (about 1.303); no
contract check and no ClassifierContractError exist in the code. -/
theorem contract_violation_scored_silently :
    predictionBlock defaultRecord (fun _ => (0, 7/5)) =
      ⟨7/5, 2151/1651, true⟩ := by
  show RiskAssessment.mk (7/5) (display_prob (7/5)) (decide (display_prob (7/5) > 0.5)) = _
  norm_num [display_prob, lowSegment, highSegment, threshold]

/-- C5 amended: the code performs no check on the classifier's probability;
any raw > 1 flows through the high branch, producing a display above 1, and
the prediction block returns the assessment built from it. -/
theorem no_contract_check (raw : ℚ) (h : 1 < raw) :
    display_prob raw > 1 ∧
    ∀ record : List (String × ℚ),
      predictionBlock record (fun _ => (0, raw)) =
        ⟨raw, display_prob raw, true⟩ := by
  have hd : display_prob raw > 1 := by
    unfold display_prob highSegment lowSegment threshold
    rw [if_neg (by norm_num; linarith)]
    norm_num
    linarith
  refine ⟨hd, fun record => ?_⟩
  have hb : decide (display_prob raw > 0.5) = true := by
    simp only [decide_eq_true_eq, gt_iff_lt]
    nlinarith [hd]
  show RiskAssessment.mk raw (display_prob raw) (decide (display_prob raw > 0.5)) = _
  rw [hb]

/-- C5 amended witness: at raw = 7/5 the display exceeds 1. -/
theorem no_contract_check_witness :
    (1 : ℚ) < 7/5 ∧ display_prob (7/5) > 1 :=
  ⟨by norm_num, (no_contract_check (7/5) (by norm_num)).1⟩

/-- C6 counterexample: a record missing the INR field is passed straight to
the classifier and scored (here the classifier answers p_positive = 1/4);
the block returns a full assessment instead of failing, and no
InvalidFeatureError exists in the code. -/
theorem missing_INR_scored_silently :
    predictionBlock recordMissingINR (fun _ => (3/4, 1/4)) =
      ⟨1/4, 625/1698, false⟩ := by
  show RiskAssessment.mk (1/4) (display_prob (1/4)) (decide (display_prob (1/4) > 0.5)) = _
  norm_num [display_prob, lowSegment, highSegment, threshold]

/-- C6 amended: no feature validation exists: the assembler unconditionally
emits all eight fields in fixed order (so a missing field cannot arise from
the interface), and the prediction block hands any record, including one
missing INR, to the classifier unchecked. -/
theorem no_feature_validation :
    (∀ w : WidgetInputs, (user_input_features w).map Prod.fst =
      ["Mg", "ALT", "AG", "CHE", "HCT", "INR", "hs_CRP", "Age"]) ∧
    (∀ (record : List (String × ℚ)) (clf : List (String × ℚ) → ℚ × ℚ),
      (predictionBlock record clf).raw_probability = (clf record).2) :=
  ⟨fun _ => rfl, fun _ _ => rfl⟩

/-- C7 counterexample: at raw probability 1/5 the rendered numeric output is
[250/849, 250/849, 849/2500] (display twice, then the threshold); the raw
probability 1/5 itself never appears in the rendering. -/
theorem raw_probability_not_surfaced :
    surfacedNumbers (1/5) = [250/849, 250/849, 849/2500] ∧
    (1/5 : ℚ) ∉ surfacedNumbers (1/5) := by
  have hs : surfacedNumbers (1/5) = [250/849, 250/849, 849/2500] := by
    norm_num [surfacedNumbers, renderResults, display_prob, lowSegment,
      highSegment, threshold, List.filterMap_cons]
  refine ⟨hs, ?_⟩
  rw [hs]
  norm_num

/-- C7 amended: the rendering surfaces exactly the display probability (as
the metric value and the progress value) and the fixed threshold (in the
caption); the raw probability is not among the surfaced numbers. -/
theorem only_display_and_threshold_surfaced :
    ∀ raw : ℚ, surfacedNumbers raw =
      [display_prob raw, display_prob raw, threshold] := by
  intro raw
  simp only [surfacedNumbers, renderResults]
  split_ifs <;> rfl

/-- C8 counterexample: a two-element pickled list is not treated as a load
error: the loader silently extracts the first element and startup succeeds
with it. -/
theorem multi_element_list_unwrapped :
    startupResult (fun _ => some (some (Artifact.wrapped [1, 2]))) =
      Except.ok (Artifact.clf 1) := rfl

/-- C8 amended: the loader takes the first element of any non-empty pickled
list, regardless of its length; an empty pickled list is assigned before the
extraction raises, so startup proceeds with the empty container instead of
stopping; a missing or unreadable artifact leaves loaded_model None, which
stops the app fatally at startup. -/
theorem loader_unwrap_behaviour :
    (∀ fs : LoadFS, (∀ f, fs f = none ∨ fs f = some none) →
      startupResult fs = Except.error ()) ∧
    (∀ m : ℕ, startupResult (fun _ => some (some (Artifact.clf m))) =
      Except.ok (Artifact.clf m)) ∧
    (∀ (m : ℕ) (ms : List ℕ),
      startupResult (fun _ => some (some (Artifact.wrapped (m :: ms)))) =
        Except.ok (Artifact.clf m)) ∧
    startupResult (fun _ => some (some (Artifact.wrapped []))) =
      Except.ok (Artifact.wrapped []) := by
  refine ⟨fun fs h => ?_, fun m => rfl, fun m ms => rfl, rfl⟩
  rcases h "xgb_model.pkl" with h1 | h1 <;>
    simp [startupResult, loaded_model, model_files, loadLoop, loadStep, h1]

/-- C8 amended witness: when no file exists, startup stops fatally. -/
theorem loader_unwrap_behaviour_witness :
    startupResult (fun _ => none) = Except.error () :=
  loader_unwrap_behaviour.1 (fun _ => none) (fun _ => Or.inl rfl)

/-- C9: for raw in [0,1), thresholding the display score at 0.5 is the same
verdict as thresholding the raw probability at the operating point:
display > 0.5 holds iff raw > threshold. -/
theorem verdict_equivalent_to_raw_threshold (raw : ℚ)
    (h0 : 0 ≤ raw) (h1 : raw < 1) :
    display_prob raw > 0.5 ↔ raw > threshold := by
  unfold display_prob highSegment lowSegment threshold
  split_ifs with h
  · norm_num at h ⊢
    constructor <;> intro hh <;> linarith
  · norm_num at h ⊢

/-- C9 witness: at raw = 1/2 both sides of the equivalence hold. -/
theorem verdict_equivalent_to_raw_threshold_witness :
    (0 : ℚ) ≤ 1/2 ∧ (1/2 : ℚ) < 1 ∧
    (display_prob (1/2) > 0.5 ↔ (1/2 : ℚ) > threshold) :=
  ⟨by norm_num, by norm_num,
   verdict_equivalent_to_raw_threshold (1/2) (by norm_num) (by norm_num)⟩

/-- C10: under the widget bounds of lines 54-63 (which are exactly the
declared domains: Age in [18,110], CHE in [100,20000], HCT in [10,70],
hs_CRP in [0,300], AG in [0,50], Mg in [0,5], ALT in [0,500], INR in
[0,10]), the assembled record has exactly the eight fields in the fixed
order Mg, ALT, AG, CHE, HCT, INR, hs_CRP, Age and every value lies within
its declared domain. -/
theorem assembled_record_schema_and_domains (w : WidgetInputs)
    (h : inBounds w) :
    (user_input_features w).map Prod.fst =
      ["Mg", "ALT", "AG", "CHE", "HCT", "INR", "hs_CRP", "Age"] ∧
    (user_input_features w).length = 8 ∧
    ((0 ≤ w.Mg ∧ w.Mg ≤ 5) ∧ (0 ≤ w.ALT ∧ w.ALT ≤ 500) ∧
     (0 ≤ w.AG ∧ w.AG ≤ 50) ∧ (100 ≤ w.CHE ∧ w.CHE ≤ 20000) ∧
     (10 ≤ w.HCT ∧ w.HCT ≤ 70) ∧ (0 ≤ w.INR ∧ w.INR ≤ 10) ∧
     (0 ≤ w.hs_CRP ∧ w.hs_CRP ≤ 300) ∧ (18 ≤ w.Age ∧ w.Age ≤ 110)) := by
  obtain ⟨a1, a2, c1, c2, t1, t2, p1, p2, g1, g2, m1, m2, l1, l2, i1, i2⟩ := h
  exact ⟨rfl, rfl, ⟨m1, m2⟩, ⟨l1, l2⟩, ⟨g1, g2⟩, ⟨c1, c2⟩, ⟨t1, t2⟩,
    ⟨i1, i2⟩, ⟨p1, p2⟩, ⟨a1, a2⟩⟩

/-- C10 witness: the sidebar's default values are in bounds and assemble to
the eight-field schema. -/
theorem assembled_record_schema_and_domains_witness :
    inBounds ⟨75, 5000, 40, 10, 12, 0.85, 25, 1.1⟩ ∧
    (user_input_features ⟨75, 5000, 40, 10, 12, 0.85, 25, 1.1⟩).map Prod.fst =
      ["Mg", "ALT", "AG", "CHE", "HCT", "INR", "hs_CRP", "Age"] :=
  ⟨by norm_num [inBounds],
   (assembled_record_schema_and_domains ⟨75, 5000, 40, 10, 12, 0.85, 25, 1.1⟩
     (by norm_num [inBounds])).1⟩

end HypoAlb
